import Mathlib

/-!
Shallow embedding of the lyrics-crawler `scrape_functions.py`:
`save_file`, `get_lyrics`, `scrape_artist`, `get_artists`, `scrape_all`.

Modelling conventions:
* The filesystem is a state `FState`: a set of directories, a map from path
  strings to file contents, and an event log (network fetches, file writes,
  directory creations) recording side effects in order.
* Python exceptions (`IndexError` from list indexing, `ValueError` from
  `int(...)`) are an `Except` result paired with the state at the moment the
  exception is raised.
* Fetched pages are supplied by an oracle `World`: for each URL, the lists of
  element texts the code queries (`find_all("div")`, `find_all("b")`,
  `find_all(class_="songinalbum_title")`, the album-item links, the
  "row"-class divs with their anchors).
* Python string primitives used by the code (`str.find`, slicing, `int(...)`,
  single-character `str.replace`, `str.split("/", 1)`) are modelled
  char-list-wise below with Python's semantics (for `int(...)`: whitespace
  stripped, optional sign, decimal digits; grouping underscores are not
  modelled as no claim depends on them).
* `time.sleep` and `print` calls have no observable effect in this model and
  are omitted; `os.path.relpath` is the identity on the path keys used here.
-/

namespace Scrape

/-- Python exceptions raised by the code under study. -/
inductive PyErr
  | indexError
  | valueError
deriving DecidableEq

/-- Python list indexing `l[n]` for `n ≥ 0`: `some` the element or out of range. -/
def pyIndex {α : Type} : List α → Nat → Option α
  | [], _ => none
  | a :: _, 0 => some a
  | _ :: l, n + 1 => pyIndex l n

/-- Python `s.find(c)` for a single-character needle: first index, or -1. -/
def pyFindAux : List Char → Char → Nat → Int
  | [], _, _ => -1
  | a :: rest, c, i => if a = c then (i : Int) else pyFindAux rest c (i + 1)

def pyFind (s : String) (c : Char) : Int :=
  pyFindAux s.toList c 0

/-- Normalise a Python slice index against a length `n`: negative indices
count from the end, and indices clamp into `[0, n]`. -/
def pyNormIdx (n : Nat) (i : Int) : Nat :=
  if i < 0 then ((n : Int) + i).toNat else min i.toNat n

/-- Python slice `s[a:b]` (step 1), with negative-index and clamping rules. -/
def pySlice (s : String) (a b : Int) : String :=
  let cs := s.toList
  let a2 := pyNormIdx cs.length a
  let b2 := pyNormIdx cs.length b
  String.mk ((cs.drop a2).take (b2 - a2))

/-- The slice the code takes from an album string:
`album_text[album_text.find("(")+1 : album_text.find(")")]`. -/
def parenSlice (s : String) : String :=
  pySlice s (pyFind s '(' + 1) (pyFind s ')')

/-- Python whitespace characters stripped by `int(...)`. -/
def isPySpace (c : Char) : Bool :=
  c = ' ' || c = '\t' || c = '\n' || c = '\r' || c = '\x0b' || c = '\x0c'

def pyStrip (cs : List Char) : List Char :=
  ((cs.dropWhile isPySpace).reverse.dropWhile isPySpace).reverse

def digitsVal (ds : List Char) : Nat :=
  ds.foldl (fun acc c => acc * 10 + (c.toNat - 48)) 0

def pyIntCore : List Char → Option Int
  | [] => none
  | '-' :: ds =>
      if !ds.isEmpty && ds.all Char.isDigit then some (-(digitsVal ds : Int)) else none
  | '+' :: ds =>
      if !ds.isEmpty && ds.all Char.isDigit then some ((digitsVal ds : Int)) else none
  | ds =>
      if ds.all Char.isDigit then some ((digitsVal ds : Int)) else none

/-- Python `int(s)`: `some` the parsed integer, `none` when `ValueError`. -/
def pyInt (s : String) : Option Int :=
  pyIntCore (pyStrip s.toList)

/-- Python `s[:n]`. -/
def pyTake (n : Nat) (s : String) : String :=
  String.mk (s.toList.take n)

/-- Python single-char `s.replace(c, "")`: delete every occurrence of `c`. -/
def pyReplaceDel (c : Char) (s : String) : String :=
  String.mk (s.toList.filter (fun a => a ≠ c))

/-- Python single-char `s.replace(c, d)`. -/
def pyReplaceChar (c d : Char) (s : String) : String :=
  String.mk (s.toList.map (fun a => if a = c then d else a))

/-- Everything after the first slash: Python `s.split("/", 1)[1]`,
`none` (an `IndexError`) when `s` has no slash. -/
def afterFirstSlash : List Char → Option (List Char)
  | [] => none
  | '/' :: rest => some rest
  | _ :: rest => afterFirstSlash rest

def pySplit1Tail (s : String) : Except PyErr String :=
  match afterFirstSlash s.toList with
  | none => Except.error PyErr.indexError
  | some cs => Except.ok (String.mk cs)

/-- Side-effect events, in the order the program performs them. -/
inductive Ev
  | fetch (url : String)
  | write (path text : String)
  | mkdir (dir : String)
deriving DecidableEq

/-- Filesystem-and-trace state threaded through the embedding. -/
structure FState where
  dirs : String → Bool
  files : String → Option String
  log : List Ev

def initState : FState :=
  { dirs := fun _ => false, files := fun _ => none, log := [] }

def fsWrite (p t : String) (st : FState) : FState :=
  { st with
    files := fun q => if q = p then some t else st.files q
    log := st.log ++ [Ev.write p t] }

def makedirs (d : String) (st : FState) : FState :=
  { st with
    dirs := fun q => if q = d then true else st.dirs q
    log := st.log ++ [Ev.mkdir d] }

def logFetch (u : String) (st : FState) : FState :=
  { st with log := st.log ++ [Ev.fetch u] }

def pathExists (p : String) (st : FState) : Bool :=
  (st.files p).isSome

/-- `save_file(path, text, replace)` from the source: append ".txt"; if not
replacing and the primary file exists, overwrite the single "_2" fallback
slot instead. -/
def save_file (path text : String) (replace : Bool) (st : FState) : FState :=
  if replace = false then
    if pathExists (path ++ ".txt") st then
      fsWrite (path ++ "_2" ++ ".txt") text st
    else
      fsWrite (path ++ ".txt") text st
  else
    fsWrite (path ++ ".txt") text st

/-- An anchor element: its `href` attribute and visible text. -/
structure Link where
  href : String
  text : String
deriving DecidableEq

/-- A song page, as the queries in `get_lyrics` see it: texts of all `div`
elements, of all `b` elements, and of all elements with class
`songinalbum_title`, each in document order. -/
structure SongPage where
  divTexts : List String
  boldTexts : List String
  albumTexts : List String

/-- An artist page: the first anchor of each `div.listalbum-item`, in
document order. -/
structure ArtistPage where
  items : List Link

/-- A letter-index page: for each `div.row` in document order, its anchors. -/
structure IndexPage where
  rows : List (List Link)

/-- Oracle for `urlopen`: the parsed page at each URL. -/
structure World where
  songPage : String → SongPage
  artistPage : String → ArtistPage
  indexPage : String → IndexPage

def azHome : String := "https://www.azlyrics.com/"

/-- Lines 31-38 of the source: the album/year/decade block of `get_lyrics`.
Exactly one `songinalbum_title` element: parse the year from the
`find("(")`/`find(")")` slice (a `ValueError` aborts) and bucket it as
`str(year)[:3] + "0s"`; otherwise `year = None`, `decade = "others"`. -/
def albumYear (albums : List String) : Except PyErr (Option Int × String) :=
  match albums with
  | [a] =>
      match pyInt (parenSlice a) with
      | none => Except.error PyErr.valueError
      | some y => Except.ok (some y, pyTake 3 (toString y) ++ "0s")
  | _ => Except.ok (none, "others")

/-- Ensure-directory-then-save step of the persist branch: mirrors
`if os.path.exists(dir): save_file(...) else: os.makedirs(dir); save_file(...)`. -/
def ensure_save (dir stem text : String) (replace : Bool) (st : FState) : FState :=
  if st.dirs dir then
    save_file stem text replace st
  else
    save_file stem text replace (makedirs dir st)

/-- `get_lyrics(song_url, save, by_decade, replace, folder)` from the source.
Returns the Python return value (`some (title, lyrics, year)` when
`save=False`, `none` — Python `None` — when `save=True`) or the raised
exception, together with the state at that point. -/
def get_lyrics (w : World) (song_url : String) (save by_decade replace : Bool)
    (folder : String) (st : FState) :
    Except PyErr (Option (String × String × Option Int)) × FState :=
  let st := logFetch song_url st
  let soup := w.songPage song_url
  match pyIndex soup.divTexts 20 with
  | none => (Except.error PyErr.indexError, st)
  | some lyrics =>
    match pyIndex soup.boldTexts 1 with
    | none => (Except.error PyErr.indexError, st)
    | some traw =>
      let title := pyReplaceDel '"' traw
      let file_title := pyReplaceChar ' ' '_' title
      match albumYear soup.albumTexts with
      | Except.error e => (Except.error e, st)
      | Except.ok (year, decade) =>
        if save = false then
          (Except.ok (some (title, lyrics, year)), st)
        else
          let st := ensure_save (folder ++ "/all/") (folder ++ "/all/" ++ file_title)
            lyrics replace st
          let st :=
            if by_decade then
              ensure_save (folder ++ "/decades/" ++ decade)
                (folder ++ "/decades/" ++ decade ++ "/" ++ file_title)
                lyrics replace st
            else st
          (Except.ok none, st)

/-- URL-building loop of `scrape_artist`: for each album item `d`,
`home + d.a['href'].split("/", 1)[1]`; an href with no slash raises
`IndexError` before any song is fetched. -/
def buildSongUrls (home : String) : List Link → Except PyErr (List String)
  | [] => Except.ok []
  | d :: rest =>
      match pySplit1Tail d.href with
      | Except.error e => Except.error e
      | Except.ok t =>
          match buildSongUrls home rest with
          | Except.error e => Except.error e
          | Except.ok ts => Except.ok ((home ++ t) :: ts)

/-- Song loop of `scrape_artist`: `get_lyrics(url, save=True, ...)` for each
URL in order; an uncaught exception aborts the loop. (The `print` and
`time.sleep` calls have no observable effect here.) -/
def loop_songs (w : World) (by_decade replace : Bool) (folder : String) :
    List String → FState → Except PyErr Unit × FState
  | [], st => (Except.ok (), st)
  | u :: rest, st =>
      match get_lyrics w u true by_decade replace folder st with
      | (Except.error e, st1) => (Except.error e, st1)
      | (Except.ok _, st1) => loop_songs w by_decade replace folder rest st1

/-- `scrape_artist(az_url, sleep, by_decade, replace, folder)` from the
source (the `sleep` pacing argument only affects timing and is omitted). -/
def scrape_artist (w : World) (az_url : String) (by_decade replace : Bool)
    (folder : String) (st : FState) : Except PyErr Unit × FState :=
  let st := logFetch az_url st
  let bs := w.artistPage az_url
  match buildSongUrls azHome bs.items with
  | Except.error e => (Except.error e, st)
  | Except.ok urls => loop_songs w by_decade replace folder urls st

/-- `get_artists(letter, home)` from the source: fetch `home + letter +
".html"`, take the second `div.row` (an `IndexError` if there is none), and
return the anchors' URLs (`home + href`) and visible texts, in order. -/
def get_artists (w : World) (letter home : String) (st : FState) :
    Except PyErr (List String × List String) × FState :=
  let url := home ++ letter ++ ".html"
  let st := logFetch url st
  let soup := w.indexPage url
  match pyIndex soup.rows 1 with
  | none => (Except.error PyErr.indexError, st)
  | some links =>
      (Except.ok (links.map (fun l => home ++ l.href), links.map (fun l => l.text)), st)

/-- Artist loop of `scrape_all`: pairs `(az_url, name)` in order; folder is
the artist's display name in "names" mode, the fixed folder otherwise. -/
def loop_artists (w : World) (by_decade replace : Bool) (folder : String) :
    List (String × String) → FState → Except PyErr Unit × FState
  | [], st => (Except.ok (), st)
  | pr :: rest, st =>
      let fold_name := if folder = "names" then pr.2 else folder
      match scrape_artist w pr.1 by_decade replace fold_name st with
      | (Except.error e, st1) => (Except.error e, st1)
      | (Except.ok _, st1) => loop_artists w by_decade replace folder rest st1

/-- Letter loop of `scrape_all`. -/
def loop_letters (w : World) (by_decade replace : Bool) (folder : String) :
    List String → FState → Except PyErr Unit × FState
  | [], st => (Except.ok (), st)
  | l :: rest, st =>
      match get_artists w l azHome st with
      | (Except.error e, st1) => (Except.error e, st1)
      | (Except.ok (urls, names), st1) =>
          match loop_artists w by_decade replace folder (urls.zip names) st1 with
          | (Except.error e, st2) => (Except.error e, st2)
          | (Except.ok _, st2) => loop_letters w by_decade replace folder rest st2

def ascii_lowercase : String := "abcdefghijklmnopqrstuvwxyz"

/-- The token list `scrape_all` builds for `letters="all"`: each lowercase
letter as a one-character string, then `str(19)`. -/
def lettersAll : List String :=
  ascii_lowercase.toList.map (fun c => String.mk [c]) ++ [toString (19 : Nat)]

/-- The `letters` argument of `scrape_all`: the string `"all"` or an
explicit list. -/
inductive LettersArg
  | all
  | list (ls : List String)

/-- `scrape_all(letters, sleep, by_decade, replace, folder)` from the source
(`sleep` omitted as in `scrape_artist`). -/
def scrape_all (w : World) (letters : LettersArg) (by_decade replace : Bool)
    (folder : String) (st : FState) : Except PyErr Unit × FState :=
  let lets :=
    match letters with
    | LettersArg.all => lettersAll
    | LettersArg.list ls => ls
  loop_letters w by_decade replace folder lets st

/-! Projections of the event log and spec-side descriptions of the values the
code computes, used to state the theorems. -/

/-- URLs of network fetches, in order. -/
def fetchEvs : List Ev → List String
  | [] => []
  | Ev.fetch u :: rest => u :: fetchEvs rest
  | Ev.write _ _ :: rest => fetchEvs rest
  | Ev.mkdir _ :: rest => fetchEvs rest

/-- File writes `(path, content)`, in order. -/
def writeEvs : List Ev → List (String × String)
  | [] => []
  | Ev.fetch _ :: rest => writeEvs rest
  | Ev.write p t :: rest => (p, t) :: writeEvs rest
  | Ev.mkdir _ :: rest => writeEvs rest

/-- The lyrics `get_lyrics` extracts: text of the 21st `div`. -/
def lyricsOf (p : SongPage) : String :=
  (pyIndex p.divTexts 20).getD ""

/-- Raw text of the 2nd `b` element. -/
def rawTitleOf (p : SongPage) : String :=
  (pyIndex p.boldTexts 1).getD ""

/-- The title `get_lyrics` computes: 2nd `b` text with every `"` removed. -/
def titleOf (p : SongPage) : String :=
  pyReplaceDel '"' (rawTitleOf p)

/-- The filename stem: title with spaces replaced by underscores. -/
def fileTitleOf (p : SongPage) : String :=
  pyReplaceChar ' ' '_' (titleOf p)

/-- The year value of the album block (total description). -/
def yearOf (albums : List String) : Option Int :=
  match albums with
  | [a] => pyInt (parenSlice a)
  | _ => none

/-- The decade bucket of the album block (total description). -/
def decadeOf (albums : List String) : String :=
  match albums with
  | [a] =>
      match pyInt (parenSlice a) with
      | some y => pyTake 3 (toString y) ++ "0s"
      | none => "others"
  | _ => "others"

/-- Did the album block parse without a `ValueError`? -/
def albumOk (albums : List String) : Bool :=
  match albums with
  | [a] => (pyInt (parenSlice a)).isSome
  | _ => true

/-- A song page on which `get_lyrics` raises no exception: at least 21 divs,
at least 2 bold elements, and a parseable album block. -/
def wfSong (p : SongPage) : Prop :=
  20 < p.divTexts.length ∧ 1 < p.boldTexts.length ∧ albumOk p.albumTexts = true

instance (p : SongPage) : Decidable (wfSong p) := by
  unfold wfSong; infer_instance

/-- Is an `Except` value a success? -/
def isOkE {α : Type} : Except PyErr α → Bool
  | Except.ok _ => true
  | Except.error _ => false

/-- Everything after the first slash, with `""` as a (never-used under the
slash hypothesis) default. -/
def tailOfHref (s : String) : String :=
  match pySplit1Tail s with
  | Except.ok t => t
  | Except.error _ => ""

/-- The song URLs an artist page yields: one per album item, in order,
base URL plus the href with its first path segment stripped. -/
def songURLsOf (w : World) (az_url : String) : List String :=
  (w.artistPage az_url).items.map (fun d => azHome ++ tailOfHref d.href)

/-- The anchors of the second `div.row` of an index page. -/
def secondRow (p : IndexPage) : List Link :=
  (pyIndex p.rows 1).getD []

/-- The artist URLs a letter token yields. -/
def artistURLsOf (w : World) (tok : String) : List String :=
  (secondRow (w.indexPage (azHome ++ tok ++ ".html"))).map (fun l => azHome ++ l.href)

def concatMap {α : Type} (f : α → List String) : List α → List String
  | [] => []
  | a :: l => f a ++ concatMap f l

/-- Fetches one artist contributes to the crawl: its page, then each song. -/
def artistTrace (w : World) (az_url : String) : List String :=
  az_url :: songURLsOf w az_url

/-- Fetches one letter token contributes: its index page, then each artist. -/
def tokenTrace (w : World) (tok : String) : List String :=
  (azHome ++ tok ++ ".html") :: concatMap (artistTrace w) (artistURLsOf w tok)

/-- The fetch sequence of a full crawl over a token list. -/
def crawlTrace (w : World) (lets : List String) : List String :=
  concatMap (tokenTrace w) lets

/-- A world the crawl traverses without raising: every index page has a
second row, every album-item href has a slash, every song page is
well-formed. -/
def wfWorld (w : World) : Prop :=
  (∀ u, 2 ≤ (w.indexPage u).rows.length) ∧
  (∀ u, ∀ l ∈ (w.artistPage u).items, isOkE (pySplit1Tail l.href) = true) ∧
  (∀ u, wfSong (w.songPage u))

/-- Modelled from the spec: "title ... with surrounding quote characters
stripped" — remove one leading and one trailing `"` only; stated for
comparison with what the code does (`pyReplaceDel`). -/
def stripSurroundingQuotes (s : String) : String :=
  let cs := s.toList
  let cs1 := if cs.head? = some '"' then cs.tail else cs
  let cs2 := if cs1.getLast? = some '"' then cs1.dropLast else cs1
  String.mk cs2

/-- The state `get_lyrics` leaves behind in the persist branch, after the
fetch has been logged: save under `all/`, and under `decades/<bucket>/` when
`by_decade`. -/
def glState (p : SongPage) (by_decade replace : Bool) (folder : String)
    (st : FState) : FState :=
  let st1 := ensure_save (folder ++ "/all/") (folder ++ "/all/" ++ fileTitleOf p)
    (lyricsOf p) replace st
  if by_decade then
    ensure_save (folder ++ "/decades/" ++ decadeOf p.albumTexts)
      (folder ++ "/decades/" ++ decadeOf p.albumTexts ++ "/" ++ fileTitleOf p)
      (lyricsOf p) replace st1
  else st1

/-! Concrete fixture pages and worlds, used to instantiate the theorems. -/

def constWorld (sp : SongPage) (ap : ArtistPage) (ip : IndexPage) : World :=
  ⟨fun _ => sp, fun _ => ap, fun _ => ip⟩

def goodSong : SongPage :=
  ⟨List.replicate 20 "x" ++ ["These are the lyrics"],
   ["AZLyrics", "\"Song Title\""],
   ["album: \"Album Name\" (1987)"]⟩

def emptySong : SongPage := ⟨[], [], []⟩

/-- One album-marker element whose text has no parenthesized year, yet whose
`find`-based slice happens to be numeric. -/
def oddAlbumSong : SongPage :=
  ⟨List.replicate 20 "x" ++ ["L"], ["AZLyrics", "\"T\""], ["1999X"]⟩

/-- A 2nd bold element with interior double quotes. -/
def interiorQuoteSong : SongPage :=
  ⟨List.replicate 20 "x" ++ ["L"], ["AZLyrics", "\"Say \"Hi\" Now\""], []⟩

def oneArtistPage : ArtistPage := ⟨[⟨"lyrics/artistone/song1.html", "Song One"⟩]⟩

def emptyArtist : ArtistPage := ⟨[]⟩

def goodIndex : IndexPage := ⟨[[], [⟨"x/artistone.html", "Artist One"⟩]]⟩

/-- A page with a single "row" element. -/
def badIndex : IndexPage := ⟨[[⟨"a", "b"⟩]]⟩

def wGood : World := constWorld goodSong oneArtistPage goodIndex
def wOdd : World := constWorld oddAlbumSong emptyArtist goodIndex
def wQuote : World := constWorld interiorQuoteSong emptyArtist goodIndex
def wEmpty : World := constWorld emptySong emptyArtist goodIndex
def wBadIndex : World := constWorld goodSong oneArtistPage badIndex

end Scrape

namespace Scrape

/-! Basic lemmas about the Python-primitive models and the event log. -/

theorem pyIndex_isSome {α : Type} :
    ∀ (l : List α) (n : Nat), n < l.length → ∃ a, pyIndex l n = some a := by
  intro l
  induction l with
  | nil => intro n h; simp at h
  | cons a rest ih =>
      intro n h
      cases n with
      | zero => exact ⟨a, rfl⟩
      | succ m => exact ih m (by simpa using h)

theorem pyIndex_none {α : Type} :
    ∀ (l : List α) (n : Nat), l.length ≤ n → pyIndex l n = none := by
  intro l
  induction l with
  | nil => intro n _; cases n <;> rfl
  | cons a rest ih =>
      intro n h
      cases n with
      | zero => simp at h
      | succ m => exact ih m (by simpa using h)

theorem fetchEvs_append (l1 l2 : List Ev) :
    fetchEvs (l1 ++ l2) = fetchEvs l1 ++ fetchEvs l2 := by
  induction l1 with
  | nil => rfl
  | cons e rest ih => cases e <;> simp [fetchEvs, ih]

theorem writeEvs_append (l1 l2 : List Ev) :
    writeEvs (l1 ++ l2) = writeEvs l1 ++ writeEvs l2 := by
  induction l1 with
  | nil => rfl
  | cons e rest ih => cases e <;> simp [writeEvs, ih]

theorem albumYear_ok (albums : List String) (h : albumOk albums = true) :
    albumYear albums = Except.ok (yearOf albums, decadeOf albums) := by
  match albums with
  | [] => rfl
  | [a] =>
      simp only [albumOk] at h
      cases hp : pyInt (parenSlice a) with
      | none => rw [hp] at h; simp at h
      | some y => simp [albumYear, yearOf, decadeOf, hp]
  | a :: b :: rest => rfl

/-! Characterizations of `get_lyrics` on well-formed pages. -/

theorem get_lyrics_false (w : World) (u : String) (bd rep : Bool) (folder : String)
    (st : FState) (h : wfSong (w.songPage u)) :
    get_lyrics w u false bd rep folder st =
      (Except.ok (some (titleOf (w.songPage u), lyricsOf (w.songPage u),
        yearOf (w.songPage u).albumTexts)), logFetch u st) := by
  obtain ⟨h20, h1, hA⟩ := h
  obtain ⟨lyr, hlyr⟩ := pyIndex_isSome _ _ h20
  obtain ⟨traw, htraw⟩ := pyIndex_isSome _ _ h1
  simp [get_lyrics, hlyr, htraw, albumYear_ok _ hA, titleOf, rawTitleOf, lyricsOf]

theorem get_lyrics_true (w : World) (u : String) (bd rep : Bool) (folder : String)
    (st : FState) (h : wfSong (w.songPage u)) :
    get_lyrics w u true bd rep folder st =
      (Except.ok none, glState (w.songPage u) bd rep folder (logFetch u st)) := by
  obtain ⟨h20, h1, hA⟩ := h
  obtain ⟨lyr, hlyr⟩ := pyIndex_isSome _ _ h20
  obtain ⟨traw, htraw⟩ := pyIndex_isSome _ _ h1
  simp [get_lyrics, hlyr, htraw, albumYear_ok _ hA, glState, titleOf, rawTitleOf,
    lyricsOf, fileTitleOf]

theorem fetchEvs_save_file (p t : String) (r : Bool) (st : FState) :
    fetchEvs (save_file p t r st).log = fetchEvs st.log := by
  unfold save_file
  split_ifs <;> simp [fsWrite, fetchEvs_append, fetchEvs]

theorem fetchEvs_makedirs (d : String) (st : FState) :
    fetchEvs (makedirs d st).log = fetchEvs st.log := by
  simp [makedirs, fetchEvs_append, fetchEvs]

theorem fetchEvs_ensure_save (d stem t : String) (r : Bool) (st : FState) :
    fetchEvs (ensure_save d stem t r st).log = fetchEvs st.log := by
  unfold ensure_save
  split_ifs <;> rw [fetchEvs_save_file]
  rw [fetchEvs_makedirs]

theorem fetchEvs_glState (p : SongPage) (bd rep : Bool) (folder : String) (st : FState) :
    fetchEvs (glState p bd rep folder st).log = fetchEvs st.log := by
  cases bd <;> simp [glState, fetchEvs_ensure_save]

theorem fetchEvs_logFetch (u : String) (st : FState) :
    fetchEvs (logFetch u st).log = fetchEvs st.log ++ [u] := by
  simp [logFetch, fetchEvs_append, fetchEvs]

theorem writeEvs_logFetch (u : String) (st : FState) :
    writeEvs (logFetch u st).log = writeEvs st.log := by
  simp [logFetch, writeEvs_append, writeEvs]

theorem writeEvs_save_file (p t : String) (r : Bool) (st : FState) :
    ∃ q, (q = p ++ ".txt" ∨ q = p ++ "_2" ++ ".txt") ∧
      writeEvs (save_file p t r st).log = writeEvs st.log ++ [(q, t)] := by
  unfold save_file
  split_ifs with h1 h2
  · exact ⟨p ++ "_2" ++ ".txt", Or.inr rfl, by simp [fsWrite, writeEvs_append, writeEvs]⟩
  · exact ⟨p ++ ".txt", Or.inl rfl, by simp [fsWrite, writeEvs_append, writeEvs]⟩
  · exact ⟨p ++ ".txt", Or.inl rfl, by simp [fsWrite, writeEvs_append, writeEvs]⟩

theorem writeEvs_ensure_save (d stem t : String) (r : Bool) (st : FState) :
    ∃ q, (q = stem ++ ".txt" ∨ q = stem ++ "_2" ++ ".txt") ∧
      writeEvs (ensure_save d stem t r st).log = writeEvs st.log ++ [(q, t)] := by
  unfold ensure_save
  split_ifs with hd
  · exact writeEvs_save_file stem t r st
  · obtain ⟨q, hq, he⟩ := writeEvs_save_file stem t r (makedirs d st)
    exact ⟨q, hq, by rw [he]; simp [makedirs, writeEvs_append, writeEvs]⟩

/-- Two distinct concrete suffixes on the same stem give distinct paths. -/
theorem txt_ne_fallback (path : String) :
    path ++ ".txt" ≠ path ++ "_2" ++ ".txt" := by
  intro hcontra
  have h2 := congrArg String.length hcontra
  rw [String.length_append, String.length_append, String.length_append,
    show (".txt").length = 4 from rfl, show ("_2").length = 2 from rfl] at h2
  omega

theorem save_file_of_not_exists (p t : String) (st : FState)
    (h : st.files (p ++ ".txt") = none) :
    save_file p t false st = fsWrite (p ++ ".txt") t st := by
  simp [save_file, pathExists, h]

theorem save_file_of_exists (p t : String) (st : FState)
    (h : (st.files (p ++ ".txt")).isSome = true) :
    save_file p t false st = fsWrite (p ++ "_2" ++ ".txt") t st := by
  simp [save_file, pathExists, h]

/-- C1: with no file at the primary path, a first `save_file` with
`replace=False` writes the primary file; a second leaves the primary intact
and writes the single `_2` fallback; a third overwrites the fallback while
the primary still holds the first text — one fallback slot, no counter. -/
theorem c1_save_two_slot_collision (path t1 t2 t3 : String) (st : FState)
    (h : st.files (path ++ ".txt") = none) :
    (save_file path t1 false st).files (path ++ ".txt") = some t1 ∧
    (save_file path t2 false (save_file path t1 false st)).files
      (path ++ ".txt") = some t1 ∧
    (save_file path t2 false (save_file path t1 false st)).files
      (path ++ "_2" ++ ".txt") = some t2 ∧
    (save_file path t3 false (save_file path t2 false (save_file path t1 false st))).files
      (path ++ ".txt") = some t1 ∧
    (save_file path t3 false (save_file path t2 false (save_file path t1 false st))).files
      (path ++ "_2" ++ ".txt") = some t3 := by
  have hne := txt_ne_fallback path
  have e1 := save_file_of_not_exists path t1 st h
  have f1 : (save_file path t1 false st).files (path ++ ".txt") = some t1 := by
    rw [e1]; simp [fsWrite]
  have e2 := save_file_of_exists path t2 (save_file path t1 false st)
    (by rw [f1]; rfl)
  have f2p : (save_file path t2 false (save_file path t1 false st)).files
      (path ++ ".txt") = some t1 := by
    rw [e2]; simp only [fsWrite]; rw [if_neg hne]; exact f1
  have f2f : (save_file path t2 false (save_file path t1 false st)).files
      (path ++ "_2" ++ ".txt") = some t2 := by
    rw [e2]; simp [fsWrite]
  have e3 := save_file_of_exists path t3
    (save_file path t2 false (save_file path t1 false st)) (by rw [f2p]; rfl)
  have f3p : (save_file path t3 false
      (save_file path t2 false (save_file path t1 false st))).files
      (path ++ ".txt") = some t1 := by
    rw [e3]; simp only [fsWrite]; rw [if_neg hne]; exact f2p
  have f3f : (save_file path t3 false
      (save_file path t2 false (save_file path t1 false st))).files
      (path ++ "_2" ++ ".txt") = some t3 := by
    rw [e3]; simp [fsWrite]
  exact ⟨f1, f2p, f2f, f3p, f3f⟩

/-- C1 witness: the three-write collision scenario at a concrete path. -/
theorem c1_save_two_slot_collision_witness :
    (save_file "song" "A" false initState).files ("song" ++ ".txt") = some "A" ∧
    (save_file "song" "B" false (save_file "song" "A" false initState)).files
      ("song" ++ ".txt") = some "A" ∧
    (save_file "song" "B" false (save_file "song" "A" false initState)).files
      ("song" ++ "_2" ++ ".txt") = some "B" ∧
    (save_file "song" "C" false (save_file "song" "B" false
      (save_file "song" "A" false initState))).files ("song" ++ ".txt") = some "A" ∧
    (save_file "song" "C" false (save_file "song" "B" false
      (save_file "song" "A" false initState))).files
      ("song" ++ "_2" ++ ".txt") = some "C" :=
  c1_save_two_slot_collision "song" "A" "B" "C" initState rfl

/-- C2: with exactly one album-marker element whose parenthesized slice
parses to a year `y`, the album block yields `year = y` and a decade bucket
equal to the first three characters of the year plus "0s"; with zero or
several album-marker elements it yields `year = None` and bucket "others". -/
theorem c2_decade_bucket (albums : List String) (a : String) (y : Int) :
    (albums = [a] → pyInt (parenSlice a) = some y →
      albumYear albums = Except.ok (some y, pyTake 3 (toString y) ++ "0s")) ∧
    (albums.length ≠ 1 → albumYear albums = Except.ok (none, "others")) := by
  constructor
  · intro h1 h2
    subst h1
    simp [albumYear, h2]
  · intro hlen
    match albums, hlen with
    | [], _ => rfl
    | [a], h => exact absurd rfl h
    | a :: b :: r, _ => rfl

/-- C2 witness: year 1987 buckets to "1980s"; an empty marker list gives
`None`/"others". -/
theorem c2_decade_bucket_witness :
    albumYear ["album: \"X\" (1987)"] = Except.ok (some 1987, "1980s") ∧
    albumYear [] = Except.ok (none, "others") :=
  ⟨(c2_decade_bucket ["album: \"X\" (1987)"] "album: \"X\" (1987)" 1987).1 rfl
      (by decide),
   (c2_decade_bucket [] "x" 0).2 (by decide)⟩

/-- C10 counterexample: exactly one album-marker element whose text "1999X"
contains no parenthesized year, yet `get_lyrics` raises no parse error: the
Python slice `text[find("(")+1 : find(")")]` is `text[0:-1] = "1999"`, which
parses. The claim that such a page always raises is false. -/
theorem c10_counterexample_no_paren_still_parses :
    (get_lyrics wOdd "u" false false false "songs" initState).1 =
      Except.ok (some ("T", "L", some 1999)) := rfl

/-- C10 amended: with exactly one album-marker element the code never falls
back to `year = None`/"others" (that fallback is decided solely by the
element count); it either raises a parse error or returns a parsed year with
its digit-derived bucket — but a text without a parenthesized year may still
parse (e.g. "1999X" yields 1999) rather than raise. -/
theorem c10_amended_single_marker_never_others (a : String) :
    albumYear [a] = Except.error PyErr.valueError ∨
    ∃ y : Int, albumYear [a] = Except.ok (some y, pyTake 3 (toString y) ++ "0s") := by
  cases hp : pyInt (parenSlice a) with
  | none => exact Or.inl (by simp [albumYear, hp])
  | some y => exact Or.inr ⟨y, by simp [albumYear, hp]⟩

/-- C5: a song page with fewer than 21 div containers makes `get_lyrics`
raise `IndexError`, with the filesystem (files and directories) unchanged —
the error occurs before any persistence step. -/
theorem c5_short_page_index_error (w : World) (u : String) (save bd rep : Bool)
    (folder : String) (st : FState) (h : (w.songPage u).divTexts.length < 21) :
    (get_lyrics w u save bd rep folder st).1 = Except.error PyErr.indexError ∧
    (get_lyrics w u save bd rep folder st).2.files = st.files ∧
    (get_lyrics w u save bd rep folder st).2.dirs = st.dirs := by
  have h20 : pyIndex (w.songPage u).divTexts 20 = none := pyIndex_none _ _ (by omega)
  simp [get_lyrics, h20, logFetch]

/-- C5 witness: a page with no divs at all, crawled with persistence on. -/
theorem c5_short_page_index_error_witness :
    (get_lyrics wEmpty "u" true true false "songs" initState).1 =
      Except.error PyErr.indexError ∧
    (get_lyrics wEmpty "u" true true false "songs" initState).2.files =
      initState.files ∧
    (get_lyrics wEmpty "u" true true false "songs" initState).2.dirs =
      initState.dirs :=
  c5_short_page_index_error wEmpty "u" true true false "songs" initState (by decide)

/-- C3 counterexample: with `save=True` (the default), `get_lyrics` returns
Python `None` — no record with title/lyrics/year/decade fields is returned,
so "every call returns a SongRecord containing all four fields" is false. -/
theorem c3_counterexample_persist_returns_none :
    (get_lyrics wGood "u" true true false "songs" initState).1 =
      Except.ok none := rfl

/-- C3 amended: on a well-formed page, `get_lyrics` with `save=False`
returns exactly the three values (title, lyrics, year) — the decade bucket
is not part of the return value — and with `save=True` it returns nothing. -/
theorem c3_amended_return_shape (w : World) (u : String) (bd rep : Bool)
    (folder : String) (st : FState) (h : wfSong (w.songPage u)) :
    (get_lyrics w u false bd rep folder st).1 =
      Except.ok (some (titleOf (w.songPage u), lyricsOf (w.songPage u),
        yearOf (w.songPage u).albumTexts)) ∧
    (get_lyrics w u true bd rep folder st).1 = Except.ok none := by
  constructor
  · rw [get_lyrics_false w u bd rep folder st h]
  · rw [get_lyrics_true w u bd rep folder st h]

/-- C3 witness: the amended return shapes at a concrete page. -/
theorem c3_amended_return_shape_witness :
    (get_lyrics wGood "u" false true false "songs" initState).1 =
      Except.ok (some ("Song Title", "These are the lyrics", some 1987)) ∧
    (get_lyrics wGood "u" true true false "songs" initState).1 =
      Except.ok none :=
  c3_amended_return_shape wGood "u" true false "songs" initState (by decide)

/-- C4 counterexample: the code removes every `"` from the 2nd bold text
(Python `replace('"', '')`), not only the surrounding ones: on a title with
interior quotes the returned title differs from the
only-surrounding-quotes-stripped reading of the spec. -/
theorem c4_counterexample_interior_quotes :
    (get_lyrics wQuote "u" false false false "songs" initState).1 =
      Except.ok (some ("Say Hi Now", "L", none)) ∧
    stripSurroundingQuotes "\"Say \"Hi\" Now\"" ≠ "Say Hi Now" :=
  ⟨rfl, by decide⟩

/-- C4 amended: with `save=False` on a page with enough divs and bold
elements, `get_lyrics` returns the 21st div's text verbatim as lyrics and
the 2nd bold text with ALL double-quote characters removed (spaces intact)
as title, and leaves the filesystem untouched: the final state is the input
state with only the network fetch logged. -/
theorem c4_amended_extraction (w : World) (u : String) (bd rep : Bool)
    (folder : String) (st : FState) (h : wfSong (w.songPage u)) :
    get_lyrics w u false bd rep folder st =
      (Except.ok (some (pyReplaceDel '"' (rawTitleOf (w.songPage u)),
        lyricsOf (w.songPage u), yearOf (w.songPage u).albumTexts)),
       logFetch u st) :=
  get_lyrics_false w u bd rep folder st h

/-- C4 witness: the amended extraction at the interior-quote page. -/
theorem c4_amended_extraction_witness :
    get_lyrics wQuote "u" false false false "songs" initState =
      (Except.ok (some ("Say Hi Now", "L", none)), logFetch "u" initState) :=
  c4_amended_extraction wQuote "u" false false "songs" initState (by decide)

/-- C6: with at least two "row" elements, `get_artists` returns one URL and
one display name per anchor of the second row, in document order, the URL
being the base prepended to the anchor's href; with fewer than two rows it
raises `IndexError` and returns nothing. -/
theorem c6_index_page_artists (w : World) (letter home : String) (st : FState) :
    (2 ≤ (w.indexPage (home ++ letter ++ ".html")).rows.length →
      get_artists w letter home st =
        (Except.ok
          ((secondRow (w.indexPage (home ++ letter ++ ".html"))).map
            (fun l => home ++ l.href),
           (secondRow (w.indexPage (home ++ letter ++ ".html"))).map
            (fun l => l.text)),
         logFetch (home ++ letter ++ ".html") st)) ∧
    ((w.indexPage (home ++ letter ++ ".html")).rows.length < 2 →
      (get_artists w letter home st).1 = Except.error PyErr.indexError) := by
  constructor
  · intro h2
    obtain ⟨links, hl⟩ :=
      pyIndex_isSome (w.indexPage (home ++ letter ++ ".html")).rows 1 (by omega)
    simp [get_artists, hl, secondRow]
  · intro h2
    have hn : pyIndex (w.indexPage (home ++ letter ++ ".html")).rows 1 = none :=
      pyIndex_none _ _ (by omega)
    simp [get_artists, hn]

/-- C6 witness: a two-row index page yields the paired URL/name lists; a
one-row page raises. -/
theorem c6_index_page_artists_witness :
    get_artists wGood "a" azHome initState =
      (Except.ok (["https://www.azlyrics.com/x/artistone.html"], ["Artist One"]),
       logFetch "https://www.azlyrics.com/a.html" initState) ∧
    (get_artists wBadIndex "a" azHome initState).1 = Except.error PyErr.indexError :=
  ⟨(c6_index_page_artists wGood "a" azHome initState).1 (by decide),
   (c6_index_page_artists wBadIndex "a" azHome initState).2 (by decide)⟩

/-- The URL-construction loop of `scrape_artist` succeeds and produces one
URL per album item, in order, when every href has a path separator. -/
theorem buildSongUrls_ok (home : String) (items : List Link)
    (hs : ∀ l ∈ items, isOkE (pySplit1Tail l.href) = true) :
    buildSongUrls home items =
      Except.ok (items.map (fun d => home ++ tailOfHref d.href)) := by
  induction items with
  | nil => rfl
  | cons d rest ih =>
      have h1 := hs d (by simp)
      cases hp : pySplit1Tail d.href with
      | error e => rw [hp] at h1; simp [isOkE] at h1
      | ok t =>
          have h2 := ih (fun l hl => hs l (by simp [hl]))
          simp [buildSongUrls, hp, h2, tailOfHref]

/-- C7: if every album-item href contains a path separator, the song-URL
list is one URL per album item in document order (base URL plus the href
with everything up to and including its first "/" stripped); an artist page
with zero album items makes `scrape_artist` finish without error, leaving
only the artist-page fetch in the log. -/
theorem c7_artist_song_urls (w : World) (az : String) (bd rep : Bool)
    (folder : String) (st : FState) :
    ((∀ l ∈ (w.artistPage az).items, isOkE (pySplit1Tail l.href) = true) →
      buildSongUrls azHome (w.artistPage az).items = Except.ok (songURLsOf w az)) ∧
    ((w.artistPage az).items = [] →
      scrape_artist w az bd rep folder st = (Except.ok (), logFetch az st)) := by
  constructor
  · intro hs
    exact buildSongUrls_ok azHome _ hs
  · intro he
    simp [scrape_artist, he, buildSongUrls, loop_songs]

/-- C7 witness: one album item resolves to one URL; an empty artist page
ends the call without error. -/
theorem c7_artist_song_urls_witness :
    buildSongUrls azHome (wGood.artistPage "a1").items =
      Except.ok ["https://www.azlyrics.com/artistone/song1.html"] ∧
    scrape_artist wEmpty "a1" true false "songs" initState =
      (Except.ok (), logFetch "a1" initState) :=
  ⟨(c7_artist_song_urls wGood "a1" true false "songs" initState).1 (by decide),
   (c7_artist_song_urls wEmpty "a1" true false "songs" initState).2 rfl⟩

/-- C9: every persisted song write carries the extracted lyrics text
verbatim: on a well-formed page, `get_lyrics` with `save=True` appends
exactly one write under `folder/all/` — content equal to the 21st div's
text — and, when `by_decade`, one further write under
`folder/decades/<bucket>/` with identical content. (All file writes the
program ever performs go through this code path.) -/
theorem c9_persisted_content (w : World) (u : String) (bd rep : Bool)
    (folder : String) (st : FState) (h : wfSong (w.songPage u)) :
    ∃ q1 q2,
      (q1 = folder ++ "/all/" ++ fileTitleOf (w.songPage u) ++ ".txt" ∨
       q1 = folder ++ "/all/" ++ fileTitleOf (w.songPage u) ++ "_2" ++ ".txt") ∧
      (q2 = folder ++ "/decades/" ++ decadeOf (w.songPage u).albumTexts ++ "/" ++
          fileTitleOf (w.songPage u) ++ ".txt" ∨
       q2 = folder ++ "/decades/" ++ decadeOf (w.songPage u).albumTexts ++ "/" ++
          fileTitleOf (w.songPage u) ++ "_2" ++ ".txt") ∧
      writeEvs (get_lyrics w u true bd rep folder st).2.log =
        writeEvs st.log ++ ((q1, lyricsOf (w.songPage u)) ::
          (if bd then [(q2, lyricsOf (w.songPage u))] else [])) := by
  rw [get_lyrics_true w u bd rep folder st h]
  cases bd with
  | false =>
      obtain ⟨q1, hq1, he1⟩ := writeEvs_ensure_save (folder ++ "/all/")
        (folder ++ "/all/" ++ fileTitleOf (w.songPage u)) (lyricsOf (w.songPage u))
        rep (logFetch u st)
      refine ⟨q1, folder ++ "/decades/" ++ decadeOf (w.songPage u).albumTexts ++
        "/" ++ fileTitleOf (w.songPage u) ++ ".txt", hq1, Or.inl rfl, ?_⟩
      simp [glState, he1, writeEvs_logFetch]
  | true =>
      obtain ⟨q1, hq1, he1⟩ := writeEvs_ensure_save (folder ++ "/all/")
        (folder ++ "/all/" ++ fileTitleOf (w.songPage u)) (lyricsOf (w.songPage u))
        rep (logFetch u st)
      obtain ⟨q2, hq2, he2⟩ := writeEvs_ensure_save
        (folder ++ "/decades/" ++ decadeOf (w.songPage u).albumTexts)
        (folder ++ "/decades/" ++ decadeOf (w.songPage u).albumTexts ++ "/" ++
          fileTitleOf (w.songPage u))
        (lyricsOf (w.songPage u)) rep
        (ensure_save (folder ++ "/all/")
          (folder ++ "/all/" ++ fileTitleOf (w.songPage u))
          (lyricsOf (w.songPage u)) rep (logFetch u st))
      exact ⟨q1, q2, hq1, hq2, by simp [glState, he2, he1, writeEvs_logFetch]⟩

/-- C9 witness: the two identical-content writes on a concrete crawl with
decade splitting. -/
theorem c9_persisted_content_witness :
    wfSong (wGood.songPage "u") ∧
    (∃ q1 q2,
      (q1 = "songs" ++ "/all/" ++ fileTitleOf (wGood.songPage "u") ++ ".txt" ∨
       q1 = "songs" ++ "/all/" ++ fileTitleOf (wGood.songPage "u") ++ "_2" ++ ".txt") ∧
      (q2 = "songs" ++ "/decades/" ++ decadeOf (wGood.songPage "u").albumTexts ++ "/" ++
          fileTitleOf (wGood.songPage "u") ++ ".txt" ∨
       q2 = "songs" ++ "/decades/" ++ decadeOf (wGood.songPage "u").albumTexts ++ "/" ++
          fileTitleOf (wGood.songPage "u") ++ "_2" ++ ".txt") ∧
      writeEvs (get_lyrics wGood "u" true true false "songs" initState).2.log =
        writeEvs initState.log ++ ((q1, lyricsOf (wGood.songPage "u")) ::
          (if true then [(q2, lyricsOf (wGood.songPage "u"))] else []))) :=
  ⟨by decide, c9_persisted_content wGood "u" true false "songs" initState (by decide)⟩

/-! Lemmas for the full-crawl trace (C8). -/

theorem concatMap_map {α β : Type} (F : β → List String) (f : α → β) (l : List α) :
    concatMap F (l.map f) = concatMap (fun x => F (f x)) l := by
  induction l with
  | nil => rfl
  | cons a r ih => simp [concatMap, ih]

theorem zip_map_pair {α β γ : Type} (f : α → β) (g : α → γ) (l : List α) :
    (l.map f).zip (l.map g) = l.map (fun x => (f x, g x)) := by
  induction l with
  | nil => rfl
  | cons a r ih => simp [ih]

theorem loop_songs_wf (w : World) (bd rep : Bool) (folder : String)
    (hW : ∀ v, wfSong (w.songPage v)) :
    ∀ (urls : List String) (st : FState),
      (loop_songs w bd rep folder urls st).1 = Except.ok () ∧
      fetchEvs (loop_songs w bd rep folder urls st).2.log =
        fetchEvs st.log ++ urls := by
  intro urls
  induction urls with
  | nil => intro st; exact ⟨rfl, by simp [loop_songs]⟩
  | cons u rest ih =>
      intro st
      have hg := get_lyrics_true w u bd rep folder st (hW u)
      have e : loop_songs w bd rep folder (u :: rest) st =
          loop_songs w bd rep folder rest
            (glState (w.songPage u) bd rep folder (logFetch u st)) := by
        simp [loop_songs, hg]
      rw [e]
      obtain ⟨h1, h2⟩ := ih (glState (w.songPage u) bd rep folder (logFetch u st))
      refine ⟨h1, ?_⟩
      rw [h2, fetchEvs_glState, fetchEvs_logFetch]
      simp

theorem scrape_artist_wf (w : World) (az : String) (bd rep : Bool)
    (folder : String) (st : FState)
    (hW : ∀ v, wfSong (w.songPage v))
    (hS : ∀ l ∈ (w.artistPage az).items, isOkE (pySplit1Tail l.href) = true) :
    (scrape_artist w az bd rep folder st).1 = Except.ok () ∧
    fetchEvs (scrape_artist w az bd rep folder st).2.log =
      fetchEvs st.log ++ artistTrace w az := by
  have hb : buildSongUrls azHome (w.artistPage az).items =
      Except.ok (songURLsOf w az) := buildSongUrls_ok azHome _ hS
  have e : scrape_artist w az bd rep folder st =
      loop_songs w bd rep folder (songURLsOf w az) (logFetch az st) := by
    simp [scrape_artist, hb]
  rw [e]
  obtain ⟨h1, h2⟩ := loop_songs_wf w bd rep folder hW (songURLsOf w az) (logFetch az st)
  refine ⟨h1, ?_⟩
  rw [h2, fetchEvs_logFetch, artistTrace]
  simp

theorem loop_artists_wf (w : World) (bd rep : Bool) (folder : String)
    (hW : ∀ v, wfSong (w.songPage v))
    (hS : ∀ u, ∀ l ∈ (w.artistPage u).items, isOkE (pySplit1Tail l.href) = true) :
    ∀ (pairs : List (String × String)) (st : FState),
      (loop_artists w bd rep folder pairs st).1 = Except.ok () ∧
      fetchEvs (loop_artists w bd rep folder pairs st).2.log =
        fetchEvs st.log ++ concatMap (fun pr => artistTrace w pr.1) pairs := by
  intro pairs
  induction pairs with
  | nil => intro st; exact ⟨rfl, by simp [loop_artists, concatMap]⟩
  | cons pr rest ih =>
      intro st
      obtain ⟨h1, h2⟩ := scrape_artist_wf w pr.1 bd rep
        (if folder = "names" then pr.2 else folder) st hW (hS pr.1)
      rcases hsa : scrape_artist w pr.1 bd rep
        (if folder = "names" then pr.2 else folder) st with ⟨res, st1⟩
      rw [hsa] at h1 h2
      simp only at h1 h2
      subst h1
      have e : loop_artists w bd rep folder (pr :: rest) st =
          loop_artists w bd rep folder rest st1 := by
        simp [loop_artists, hsa]
      rw [e]
      obtain ⟨g1, g2⟩ := ih st1
      refine ⟨g1, ?_⟩
      rw [g2, h2]
      simp [concatMap]

theorem get_artists_ok (w : World) (letter home : String) (st : FState)
    (links : List Link)
    (hl : pyIndex (w.indexPage (home ++ letter ++ ".html")).rows 1 = some links) :
    get_artists w letter home st =
      (Except.ok (links.map (fun l => home ++ l.href),
        links.map (fun l => l.text)),
       logFetch (home ++ letter ++ ".html") st) := by
  simp [get_artists, hl]

theorem loop_letters_wf (w : World) (bd rep : Bool) (folder : String)
    (hW : ∀ v, wfSong (w.songPage v))
    (hS : ∀ u, ∀ l ∈ (w.artistPage u).items, isOkE (pySplit1Tail l.href) = true)
    (hI : ∀ u, 2 ≤ (w.indexPage u).rows.length) :
    ∀ (lets : List String) (st : FState),
      (loop_letters w bd rep folder lets st).1 = Except.ok () ∧
      fetchEvs (loop_letters w bd rep folder lets st).2.log =
        fetchEvs st.log ++ crawlTrace w lets := by
  intro lets
  induction lets with
  | nil => intro st; exact ⟨rfl, by simp [loop_letters, crawlTrace, concatMap]⟩
  | cons tok rest ih =>
      intro st
      obtain ⟨links, hl⟩ :=
        pyIndex_isSome (w.indexPage (azHome ++ tok ++ ".html")).rows 1
          (by have := hI (azHome ++ tok ++ ".html"); omega)
      have hga := get_artists_ok w tok azHome st links hl
      obtain ⟨a1, a2⟩ := loop_artists_wf w bd rep folder hW hS
        ((links.map (fun l => azHome ++ l.href)).zip (links.map (fun l => l.text)))
        (logFetch (azHome ++ tok ++ ".html") st)
      rcases hla : loop_artists w bd rep folder
        ((links.map (fun l => azHome ++ l.href)).zip (links.map (fun l => l.text)))
        (logFetch (azHome ++ tok ++ ".html") st) with ⟨res2, st2⟩
      rw [hla] at a1 a2
      simp only at a1 a2
      subst a1
      have e : loop_letters w bd rep folder (tok :: rest) st =
          loop_letters w bd rep folder rest st2 := by
        simp [loop_letters, hga, hla]
      rw [e]
      obtain ⟨g1, g2⟩ := ih st2
      refine ⟨g1, ?_⟩
      rw [g2, a2, fetchEvs_logFetch]
      have hsr : secondRow (w.indexPage (azHome ++ tok ++ ".html")) = links := by
        simp [secondRow, hl]
      simp [crawlTrace, concatMap, tokenTrace, artistURLsOf, hsr,
        zip_map_pair, concatMap_map]

/-- C8: with `letters="all"`, `scrape_all` builds exactly the 26 lowercase
letters in alphabetical order followed by the single catch-all token "19",
and on a well-formed site the crawl's fetch sequence is exactly: for each
token in that order, its index page, then for each artist of that token in
returned order, the artist page followed by every one of that artist's song
pages in order (each fetched song is then persisted, before the next
artist). -/
theorem c8_crawl_order (w : World) (bd rep : Bool) (folder : String)
    (st : FState) (h : wfWorld w) :
    lettersAll = ["a", "b", "c", "d", "e", "f", "g", "h", "i", "j", "k", "l",
      "m", "n", "o", "p", "q", "r", "s", "t", "u", "v", "w", "x", "y", "z",
      "19"] ∧
    (scrape_all w LettersArg.all bd rep folder st).1 = Except.ok () ∧
    fetchEvs (scrape_all w LettersArg.all bd rep folder st).2.log =
      fetchEvs st.log ++ crawlTrace w lettersAll := by
  obtain ⟨hI, hS, hW⟩ := h
  obtain ⟨h1, h2⟩ := loop_letters_wf w bd rep folder hW hS hI lettersAll st
  exact ⟨by decide, h1, h2⟩

/-- C8 witness: the crawl order at a concrete constant world. -/
theorem c8_crawl_order_witness :
    wfWorld wGood ∧
    (lettersAll = ["a", "b", "c", "d", "e", "f", "g", "h", "i", "j", "k", "l",
      "m", "n", "o", "p", "q", "r", "s", "t", "u", "v", "w", "x", "y", "z",
      "19"] ∧
    (scrape_all wGood LettersArg.all true false "songs" initState).1 =
      Except.ok () ∧
    fetchEvs (scrape_all wGood LettersArg.all true false "songs" initState).2.log =
      fetchEvs initState.log ++ crawlTrace wGood lettersAll) := by
  have hwf : wfWorld wGood :=
    ⟨fun u => (by decide : 2 ≤ goodIndex.rows.length),
     fun u => (by decide :
       ∀ l ∈ oneArtistPage.items, isOkE (pySplit1Tail l.href) = true),
     fun u => (by decide : wfSong goodSong)⟩
  exact ⟨hwf, c8_crawl_order wGood true false "songs" initState hwf⟩

end Scrape
